import Mathlib

/-!
Verification of the blob storage device layer (`src/storage/src/device.rs`) and
the prefetch configuration model (`src/api/src/http.rs`) of the image-service
repository.  The Rust code is shallowly embedded: machine integers become `Nat`
with explicit `% 2^w` where truncation matters, checked arithmetic becomes
`Option`, fallible functions return `Except`, and trait objects become
structures of their observable accessors.
-/

/-- Modulus of the Rust `u64` type. -/
def U64_MOD : Nat := 2 ^ 64

/-- Modulus of the Rust `u32` type. -/
def U32_MOD : Nat := 2 ^ 32

/-- Model of `u64::checked_add`: the sum when it fits in 64 bits, otherwise
overflow is reported as `none`. -/
def checkedAdd64 (a b : Nat) : Option Nat :=
  if a + b < U64_MOD then some (a + b) else none

/-- Model of `nydus_utils::compress::Algorithm`. -/
inductive CompressAlgorithm where
  | none
  | lz4Block
  | gzip
  | zstd
deriving DecidableEq, Repr

/-- Model of `nydus_utils::digest::Algorithm`. -/
inductive DigestAlgorithm where
  | blake3
  | sha256
deriving DecidableEq, Repr

/-- Bit value of `BlobFeatures::V5_NO_EXT_BLOB_TABLE` (bitflags over `u32`). -/
def V5_NO_EXT_BLOB_TABLE : Nat := 1

/-- Model of `BlobInfo`: configuration information for a metadata/data blob
object.  The `fs_cache_file` handle is opaque to the device layer and is
modelled as `Option Unit`. -/
structure BlobInfo where
  blob_index : Nat
  blob_id : String
  blob_features : Nat
  compressed_size : Nat
  uncompressed_size : Nat
  chunk_size : Nat
  chunk_count : Nat
  compressor : CompressAlgorithm
  digester : DigestAlgorithm
  readahead_offset : Nat
  readahead_size : Nat
  validate_data : Bool
  stargz : Bool
  meta_flags : Nat
  meta_ci_compressor : Nat
  meta_ci_offset : Nat
  meta_ci_compressed_size : Nat
  meta_ci_uncompressed_size : Nat
  fs_cache_file : Option Unit
deriving DecidableEq, Repr

/-- Model of `BlobInfo::compute_features`: ORs in `V5_NO_EXT_BLOB_TABLE` when
`chunk_count == 0`, and sets the `stargz` flag when the compressor is GZip.
Note the flag is only ever set, never cleared, by this function. -/
def BlobInfo.compute_features (b : BlobInfo) : BlobInfo :=
  let b1 :=
    if b.chunk_count = 0 then
      { b with blob_features := b.blob_features ||| V5_NO_EXT_BLOB_TABLE }
    else b
  if b1.compressor = CompressAlgorithm.gzip then { b1 with stargz := true } else b1

/-- Model of `BlobInfo::new`: fields not passed in are initialised exactly as in
the source (compressor `None`, digester `Blake3`, zeroed numerics, cleared
flags), then `compute_features` is applied. -/
def BlobInfo.new (blob_index : Nat) (blob_id : String) (uncompressed_size : Nat)
    (compressed_size : Nat) (chunk_size : Nat) (chunk_count : Nat)
    (blob_features : Nat) : BlobInfo :=
  BlobInfo.compute_features
    { blob_index := blob_index
      blob_id := blob_id
      blob_features := blob_features
      compressed_size := compressed_size
      uncompressed_size := uncompressed_size
      chunk_size := chunk_size
      chunk_count := chunk_count
      compressor := CompressAlgorithm.none
      digester := DigestAlgorithm.blake3
      readahead_offset := 0
      readahead_size := 0
      validate_data := false
      stargz := false
      meta_flags := 0
      meta_ci_compressor := 0
      meta_ci_offset := 0
      meta_ci_compressed_size := 0
      meta_ci_uncompressed_size := 0
      fs_cache_file := Option.none }

/-- Model of `BlobInfo::set_compressor`: stores the compressor and re-runs
`compute_features`. -/
def BlobInfo.set_compressor (b : BlobInfo) (compressor : CompressAlgorithm) :
    BlobInfo :=
  BlobInfo.compute_features { b with compressor := compressor }

/-- Model of `BlobInfo::is_stargz`. -/
def BlobInfo.is_stargz (b : BlobInfo) : Bool :=
  b.stargz

/-- Model of `BlobInfo::set_readahead`: the `u64` arguments are stored into the
`u32` fields with Rust `as` casts, i.e. truncation modulo `2^32`.  The
accessors `readahead_offset()`/`readahead_size()` widen the stored `u32` back
to `u64`, which is the identity on the stored value, so the structure fields
double as the accessors. -/
def BlobInfo.set_readahead (b : BlobInfo) (offset size : Nat) : BlobInfo :=
  { b with
    readahead_offset := offset % U32_MOD
    readahead_size := size % U32_MOD }

/-- Model of the `BlobChunkInfo` trait object: a record of the observable
results of its pure accessors.  `chunk_id` (a 32-byte digest) is modelled as an
opaque `Nat`. -/
structure BlobChunkInfo where
  chunk_id : Nat
  id : Nat
  blob_index : Nat
  compress_offset : Nat
  compress_size : Nat
  uncompress_offset : Nat
  uncompress_size : Nat
  is_compressed : Bool
  is_hole : Bool
deriving DecidableEq, Repr

/-- Model of `BlobIoChunk`: every accessor of the enumeration delegates to the
underlying `BlobChunkInfo` trait object via `as_base` (the dead `Address`
variant panics in `as_base` and is never constructed), so the enumeration is
observationally the base trait object. -/
abbrev BlobIoChunk := BlobChunkInfo

/-- Model of `BlobIoDesc`: a blob IO descriptor for a continuous IO range
within a chunk. -/
structure BlobIoDesc where
  blob : BlobInfo
  chunkinfo : BlobIoChunk
  offset : Nat
  size : Nat
  user_io : Bool
deriving DecidableEq, Repr

/-- Model of `BlobIoDesc::is_continuous`: the previous chunk's compressed end
offset is computed with `u64::checked_add`; on overflow the result is `false`,
otherwise the descriptors are continuous iff the end equals this descriptor's
compressed offset and both descriptors target the same blob index. -/
def BlobIoDesc.is_continuous (self prev : BlobIoDesc) : Bool :=
  let offset := self.chunkinfo.compress_offset
  let prev_size := prev.chunkinfo.compress_size
  match checkedAdd64 prev.chunkinfo.compress_offset prev_size with
  | some prev_end =>
      prev_end == offset && self.blob.blob_index == prev.blob.blob_index
  | Option.none => false

/-- Model of `BlobIoVec`: a scatter/gather list for blob IO. -/
structure BlobIoVec where
  bi_flags : Nat
  bi_size : Nat
  bi_vec : List BlobIoDesc
deriving DecidableEq, Repr

/-- Model of `BlobIoVec::validate`: when the vector holds more than one
descriptor, every descriptor after the first must carry the first descriptor's
blob index; otherwise the vector is trivially valid. -/
def BlobIoVec.validate (v : BlobIoVec) : Bool :=
  match v.bi_vec with
  | d0 :: rest => rest.all fun n => n.blob.blob_index == d0.blob.blob_index
  | [] => true

/-- Model of `BlobIoVec::get_target_blob_index`: the first descriptor's blob
index, or `none` when the vector is empty. -/
def BlobIoVec.get_target_blob_index (v : BlobIoVec) : Option Nat :=
  match v.bi_vec with
  | [] => Option.none
  | d :: _ => some d.blob.blob_index

/-- Model of `BlobIoSegment`. -/
structure BlobIoSegment where
  offset : Nat
  len : Nat
deriving DecidableEq, Repr

/-- Model of `BlobIoTag`. -/
inductive BlobIoTag where
  | user (segment : BlobIoSegment)
  | internal (compress_offset : Nat)
deriving DecidableEq, Repr

/-- Model of `BlobIoRange`: multiple continuous blob IOs merged into one
storage backend request. -/
structure BlobIoRange where
  blob_info : BlobInfo
  blob_offset : Nat
  blob_size : Nat
  chunks : List BlobIoChunk
  tags : List BlobIoTag
deriving DecidableEq, Repr

/-- Model of the chunk-id loop inside `BlobIoRange::validate`: the source
iterates `idx` over `1..chunks.len()` and returns `false` as soon as
`chunks[idx - 1].id() != chunks[idx].id()`, i.e. it demands that every pair of
adjacent chunks carry EQUAL ids. -/
def BlobIoRange.checkChunkIds : List BlobIoChunk → Bool
  | [] => true
  | [_] => true
  | a :: b :: rest =>
      (a.id == b.id) && BlobIoRange.checkChunkIds (b :: rest)

/-- Model of `BlobIoRange::validate`: the range must sit inside the blob (the
source compares against `uncompressed_size`), `blob_offset + blob_size` must
not overflow `u64` nor exceed the bound, the `chunks` and `tags` arrays must
have equal length, and the adjacent-chunk-id check must pass. -/
def BlobIoRange.validate (r : BlobIoRange) : Bool :=
  if r.blob_offset ≥ r.blob_info.uncompressed_size
      || r.blob_size > r.blob_info.uncompressed_size then false
  else
    match checkedAdd64 r.blob_offset r.blob_size with
    | Option.none => false
    | some e =>
        if e > r.blob_info.uncompressed_size then false
        else if r.chunks.length ≠ r.tags.length then false
        else BlobIoRange.checkChunkIds r.chunks

/-- Model of `std::io::Error` restricted to what the device layer produces:
the `einval!` macro builds an `InvalidInput` error with a message; other error
kinds are collapsed into `other`. -/
inductive IoError where
  | invalidInput (msg : String)
  | other (msg : String)
deriving DecidableEq, Repr

/-- Model of the `BlobCache` trait object as seen from `BlobDevice`: its
identity (`blob_id()`) and its chunk map's readiness oracle
(`get_chunk_map().is_ready(chunk)`, an `io::Result<bool>` modelled as
`Option Bool`, with errors collapsed to `none`). -/
structure CacheModel where
  blob_id : String
  is_ready : BlobIoChunk → Option Bool

/-- Model of `BlobDevice`: the atomically swappable vector of per-blob caches
(`blobs`, an `ArcSwap<Vec<Arc<dyn BlobCache>>>`) and the `blob_count` field
fixed at construction. -/
structure BlobDevice where
  blobs : List CacheModel
  blob_count : Nat

/-- Model of the cache-construction loop shared by `BlobDevice::new` and
`BlobDevice::update`: `BLOB_FACTORY.new_blob_cache` is abstracted as the
function argument `newCache`, and the first factory failure aborts the loop
(the `?` operator). -/
def buildCaches (newCache : BlobInfo → Except IoError CacheModel) :
    List BlobInfo → Except IoError (List CacheModel)
  | [] => Except.ok []
  | blob_info :: rest =>
      match newCache blob_info with
      | Except.error e => Except.error e
      | Except.ok blob =>
          match buildCaches newCache rest with
          | Except.error e => Except.error e
          | Except.ok blobs => Except.ok (blob :: blobs)

/-- Model of `BlobDevice::new`: builds one cache per blob info and records
`blob_count` as the number of blob infos. -/
def BlobDevice.new (newCache : BlobInfo → Except IoError CacheModel)
    (blob_infos : List BlobInfo) : Except IoError BlobDevice :=
  match buildCaches newCache blob_infos with
  | Except.error e => Except.error e
  | Except.ok blobs => Except.ok { blobs := blobs, blob_count := blob_infos.length }

/-- Observable side effects of `BlobDevice::update`: a `stop_prefetch()` or
`start_prefetch()` call on the cache with the given `blob_id()`, or the atomic
store that swaps the blob vector. -/
inductive UpdateEvent where
  | stopPrefetch (blob_id : String)
  | swapBlobs
  | startPrefetch (blob_id : String)

/-- Result of `BlobDevice::update` together with the device state after the
call and the ordered trace of observable events. -/
structure UpdateOutcome where
  result : Except IoError Unit
  dev : BlobDevice
  events : List UpdateEvent

/-- Model of `BlobDevice::update`: rejects a blob-info list whose length
differs from the current vector's length with `einval!`; builds the new caches
through the factory (any failure aborts with the old state intact); then, when
`fs_prefetch` is set, stops prefetch on every old cache, atomically stores the
new vector, and starts prefetch on every new cache. -/
def BlobDevice.update (newCache : BlobInfo → Except IoError CacheModel)
    (dev : BlobDevice) (blob_infos : List BlobInfo) (fs_prefetch : Bool) :
    UpdateOutcome :=
  if dev.blobs.length ≠ blob_infos.length then
    { result := Except.error (IoError.invalidInput "number of blobs does not match")
      dev := dev
      events := [] }
  else
    match buildCaches newCache blob_infos with
    | Except.error e => { result := Except.error e, dev := dev, events := [] }
    | Except.ok blobs =>
        let stopEvents :=
          if fs_prefetch then
            dev.blobs.map fun b => UpdateEvent.stopPrefetch b.blob_id
          else []
        let startEvents :=
          if fs_prefetch then
            blobs.map fun b => UpdateEvent.startPrefetch b.blob_id
          else []
        { result := Except.ok ()
          dev := { dev with blobs := blobs }
          events := stopEvents ++ [UpdateEvent.swapBlobs] ++ startEvents }

/-- Outcome of `BlobDevice::read_to`: either the early `Ok(0)` return, a
validation error, or the dispatch of the read to the cache at the target blob
index (the `w.write_from` call that forwards to `blobs[index].read`, whose
byte-level behaviour is outside the device's validation layer). -/
inductive ReadToResult where
  | ok (n : Nat)
  | err (e : IoError)
  | dispatched (blob_index : Nat) (size : Nat)
deriving Repr

/-- Model of `BlobDevice::read_to`: an empty vector returns `Ok(0)` when
`bi_size` is zero and `einval!` otherwise; a vector spanning multiple blobs is
rejected; an out-of-range first blob index is rejected; otherwise the read is
dispatched to the target cache with `bi_size` bytes requested. -/
def BlobDevice.read_to (dev : BlobDevice) (desc : BlobIoVec) : ReadToResult :=
  match desc.bi_vec with
  | [] =>
      if desc.bi_size = 0 then ReadToResult.ok 0
      else ReadToResult.err (IoError.invalidInput "BlobIoVec size does not match.")
  | d :: _ =>
      if desc.validate = false then
        ReadToResult.err (IoError.invalidInput "BlobIoVec targets multiple blobs.")
      else if dev.blob_count ≤ d.blob.blob_index then
        ReadToResult.err (IoError.invalidInput "BlobIoVec has out of range blob_index.")
      else
        ReadToResult.dispatched d.blob.blob_index desc.bi_size

/-- Model of `BlobDevice::get_blob_by_iovec`: resolves the io-vector's target
blob index and returns the cache at that index when the index is known and
smaller than `blob_count`.  The source indexes the loaded vector directly; the
model uses the safe lookup, which agrees with the source whenever `blob_count`
equals the vector length (the invariant established by `new` and `update`). -/
def BlobDevice.get_blob_by_iovec (dev : BlobDevice) (iovec : BlobIoVec) :
    Option CacheModel :=
  match iovec.get_target_blob_index with
  | some blob_index =>
      if blob_index < dev.blob_count then dev.blobs[blob_index]? else Option.none
  | Option.none => Option.none

/-- Model of `BlobDevice::all_chunks_ready`: for each io-vector, resolve its
cache (returning `false` when that fails) and require every descriptor's chunk
to be reported ready by the cache's chunk map, `is_ready` errors counting as
not ready (`unwrap_or(false)`). -/
def BlobDevice.all_chunks_ready (dev : BlobDevice) (io_vecs : List BlobIoVec) :
    Bool :=
  io_vecs.all fun io_vec =>
    match dev.get_blob_by_iovec io_vec with
    | some blob =>
        io_vec.bi_vec.all fun desc => (blob.is_ready desc.chunkinfo).getD false
    | Option.none => false

/-- Model of `BlobPrefetchConfig` from `src/api/src/http.rs`. -/
structure BlobPrefetchConfig where
  enable : Bool
  threads_count : Nat
  merging_size : Nat
  bandwidth_rate : Nat
deriving DecidableEq, Repr

/-- Model of the derived `Default` implementation for `BlobPrefetchConfig`:
`bool` defaults to `false` and the integer fields to `0`. -/
def BlobPrefetchConfig.default : BlobPrefetchConfig :=
  { enable := false, threads_count := 0, merging_size := 0, bandwidth_rate := 0 }

/-- Model of a JSON scalar value, sufficient for the configuration documents
under study. -/
inductive JsonValue where
  | bool (b : Bool)
  | num (n : Int)
  | str (s : String)
deriving DecidableEq, Repr

/-- Model of a JSON object as an association list of fields. -/
abbrev JsonObject := List (String × JsonValue)

/-- First value bound to `key` in the object, if any. -/
def JsonObject.lookupField (j : JsonObject) (key : String) : Option JsonValue :=
  (j.find? fun kv => kv.1 == key).map fun kv => kv.2

/-- Extraction of a required `bool` field, as the serde-derived deserializer
performs it: a missing field or a value of the wrong type is an error. -/
def JsonObject.getBoolField (j : JsonObject) (key : String) : Except String Bool :=
  match j.lookupField key with
  | some (JsonValue.bool b) => Except.ok b
  | some _ => Except.error ("invalid type for field " ++ key)
  | Option.none => Except.error ("missing field " ++ key)

/-- Extraction of a required unsigned integer field bounded by the Rust
integer type's modulus, as the serde-derived deserializer performs it. -/
def JsonObject.getUIntField (j : JsonObject) (key : String) (bound : Nat) :
    Except String Nat :=
  match j.lookupField key with
  | some (JsonValue.num n) =>
      if 0 ≤ n ∧ n < (bound : Int) then Except.ok n.toNat
      else Except.error ("integer out of range for field " ++ key)
  | some _ => Except.error ("invalid type for field " ++ key)
  | Option.none => Except.error ("missing field " ++ key)

/-- Model of the serde-derived `Deserialize` implementation for
`BlobPrefetchConfig`: the struct carries no `serde(default)` attribute, so all
four fields are required; `threads_count` and `merging_size` are `usize`
(64-bit here) and `bandwidth_rate` is `u32`. -/
def deserializeBlobPrefetchConfig (j : JsonObject) :
    Except String BlobPrefetchConfig :=
  match j.getBoolField "enable" with
  | Except.error e => Except.error e
  | Except.ok enable =>
      match j.getUIntField "threads_count" U64_MOD with
      | Except.error e => Except.error e
      | Except.ok threads_count =>
          match j.getUIntField "merging_size" U64_MOD with
          | Except.error e => Except.error e
          | Except.ok merging_size =>
              match j.getUIntField "bandwidth_rate" U32_MOD with
              | Except.error e => Except.error e
              | Except.ok bandwidth_rate =>
                  Except.ok
                    { enable := enable
                      threads_count := threads_count
                      merging_size := merging_size
                      bandwidth_rate := bandwidth_rate }

/-- Concrete chunk fixture used by witnesses and counterexamples. -/
def sampleChunk (id compress_offset compress_size : Nat) : BlobChunkInfo :=
  { chunk_id := 0
    id := id
    blob_index := 0
    compress_offset := compress_offset
    compress_size := compress_size
    uncompress_offset := compress_offset
    uncompress_size := compress_size
    is_compressed := false
    is_hole := false }

/-- Concrete blob fixture used by witnesses and counterexamples. -/
def sampleBlob (blob_index : Nat) : BlobInfo :=
  BlobInfo.new blob_index "blob" 4096 4096 1024 4 0

/-- Concrete descriptor fixture used by witnesses and counterexamples. -/
def sampleDesc (blob_index : Nat) (c : BlobChunkInfo) : BlobIoDesc :=
  { blob := sampleBlob blob_index
    chunkinfo := c
    offset := 0
    size := 8
    user_io := true }

/-- C2: `BlobIoVec::validate` returns true iff the vector is empty or every
descriptor carries the same blob index as the first descriptor. -/
theorem blob_io_vec_validate_iff (v : BlobIoVec) :
    v.validate = true ↔
      (v.bi_vec = [] ∨ ∃ d0 rest, v.bi_vec = d0 :: rest ∧
        ∀ d ∈ v.bi_vec, d.blob.blob_index = d0.blob.blob_index) := by
  obtain ⟨flags, size, l⟩ := v
  cases l with
  | nil => simp [BlobIoVec.validate]
  | cons d0 rest =>
    simp only [BlobIoVec.validate, List.all_eq_true, beq_iff_eq]
    constructor
    · intro h
      refine Or.inr ⟨d0, rest, rfl, ?_⟩
      intro d hd
      rcases List.mem_cons.mp hd with h1 | h2
      · rw [h1]
      · exact h d h2
    · rintro (h | ⟨d0q, restq, heq, hall⟩)
      · exact absurd h (by simp)
      · injection heq with h1 h2
        subst h1
        subst h2
        intro n hn
        exact hall n (List.mem_cons_of_mem d0 hn)

/-- Witness for C2 at the concrete empty io-vector. -/
theorem blob_io_vec_validate_iff_witness :
    BlobIoVec.validate { bi_flags := 0, bi_size := 0, bi_vec := [] } = true :=
  (blob_io_vec_validate_iff { bi_flags := 0, bi_size := 0, bi_vec := [] }).mpr
    (Or.inl rfl)

/-- C3: `BlobIoDesc::is_continuous(prev)` returns true iff the two descriptors
agree on blob index and the previous chunk's compressed end offset, computed
with checked 64-bit addition (overflow makes the result false), equals this
chunk's compressed offset. -/
theorem blob_io_desc_is_continuous_iff (self prev : BlobIoDesc) :
    self.is_continuous prev = true ↔
      (prev.blob.blob_index = self.blob.blob_index ∧
       prev.chunkinfo.compress_offset + prev.chunkinfo.compress_size =
         self.chunkinfo.compress_offset ∧
       prev.chunkinfo.compress_offset + prev.chunkinfo.compress_size < U64_MOD) := by
  by_cases h :
      prev.chunkinfo.compress_offset + prev.chunkinfo.compress_size < U64_MOD
  · simp only [BlobIoDesc.is_continuous, checkedAdd64, if_pos h, Bool.and_eq_true,
      beq_iff_eq]
    constructor
    · rintro ⟨h1, h2⟩
      exact ⟨h2.symm, h1, h⟩
    · rintro ⟨h1, h2, _⟩
      exact ⟨h2, h1.symm⟩
  · simp only [BlobIoDesc.is_continuous, checkedAdd64, if_neg h]
    simp only [Bool.false_eq_true, false_iff]
    rintro ⟨_, _, hlt⟩
    exact h hlt

/-- Witness for C3 at two physically adjacent chunks of one blob. -/
theorem blob_io_desc_is_continuous_iff_witness :
    BlobIoDesc.is_continuous (sampleDesc 0 (sampleChunk 1 4352 512))
      (sampleDesc 0 (sampleChunk 0 4096 256)) = true :=
  (blob_io_desc_is_continuous_iff (sampleDesc 0 (sampleChunk 1 4352 512))
      (sampleDesc 0 (sampleChunk 0 4096 256))).mpr
    (by refine ⟨rfl, by norm_num [sampleDesc, sampleChunk, sampleBlob], ?_⟩
        norm_num [sampleDesc, sampleChunk, U64_MOD])

/-- C8 counterexample: a fresh blob whose compressor is set to GZip and then
back to None keeps `is_stargz() == true` while its compressor is not GZip, so
the stargz flag is not the derivation rule from the current compressor. -/
theorem blob_info_stargz_cex :
    BlobInfo.is_stargz
        (BlobInfo.set_compressor
          (BlobInfo.set_compressor (BlobInfo.new 0 "b" 4096 4096 1024 4 0)
            CompressAlgorithm.gzip)
          CompressAlgorithm.none) = true
    ∧ (BlobInfo.set_compressor
          (BlobInfo.set_compressor (BlobInfo.new 0 "b" 4096 4096 1024 4 0)
            CompressAlgorithm.gzip)
          CompressAlgorithm.none).compressor ≠ CompressAlgorithm.gzip := by
  constructor
  · decide
  · decide

/-- C8 amended: the stargz flag is sticky.  `set_compressor(c)` leaves
`is_stargz()` equal to the old flag ORed with `c == GZip`, and a freshly
constructed `BlobInfo` starts with the flag cleared; in particular the flag is
never cleared by a later `set_compressor(None)`. -/
theorem blob_info_stargz_sticky :
    (∀ (b : BlobInfo) (c : CompressAlgorithm),
      (b.set_compressor c).is_stargz = (b.is_stargz || (c == CompressAlgorithm.gzip)))
    ∧ ∀ blob_index blob_id uncompressed_size compressed_size chunk_size chunk_count
        blob_features,
        (BlobInfo.new blob_index blob_id uncompressed_size compressed_size
          chunk_size chunk_count blob_features).is_stargz = false := by
  constructor
  · intro b c
    cases c <;>
      simp [BlobInfo.set_compressor, BlobInfo.compute_features, BlobInfo.is_stargz] <;>
      split <;> simp
  · intro blob_index blob_id uncompressed_size compressed_size chunk_size
      chunk_count blob_features
    simp only [BlobInfo.new, BlobInfo.compute_features, BlobInfo.is_stargz]
    split <;> simp

/-- Witness for C8 amended at a concrete blob and compressor. -/
theorem blob_info_stargz_sticky_witness :
    ((sampleBlob 0).set_compressor CompressAlgorithm.gzip).is_stargz =
      ((sampleBlob 0).is_stargz || (CompressAlgorithm.gzip == CompressAlgorithm.gzip)) :=
  blob_info_stargz_sticky.1 (sampleBlob 0) CompressAlgorithm.gzip

/-- C10: `set_readahead(offset, size)` stores both arguments truncated to 32
bits and the accessors return exactly the truncated values; a size that is a
nonzero multiple of `2^32` is stored as `0`, the value that disables prefetch
for the blob. -/
theorem blob_info_set_readahead_spec (b : BlobInfo) (offset size : Nat) :
    (b.set_readahead offset size).readahead_offset = offset % U32_MOD
    ∧ (b.set_readahead offset size).readahead_size = size % U32_MOD
    ∧ ∀ k, k ≠ 0 → (b.set_readahead offset (k * U32_MOD)).readahead_size = 0 := by
  refine ⟨rfl, rfl, ?_⟩
  intro k _
  simp [BlobInfo.set_readahead, Nat.mul_mod_left]

/-- Witness for C10 at concrete arguments, with `size` twice `2^32`. -/
theorem blob_info_set_readahead_spec_witness :
    ((sampleBlob 0).set_readahead 3 (2 * U32_MOD)).readahead_size = 0 :=
  (blob_info_set_readahead_spec (sampleBlob 0) 3 (2 * U32_MOD)).2.2 2 (by decide)

/-- C1: `BlobDevice::read_to` returns `Ok(0)` for an empty vector of size 0,
an `InvalidInput` error for an empty vector of nonzero size, an `InvalidInput`
error when `validate()` fails (descriptors target multiple blobs) or when the
first descriptor's blob index is out of range, and only otherwise dispatches
the read to the target cache. -/
theorem blob_device_read_to_spec (dev : BlobDevice) (desc : BlobIoVec) :
    (desc.bi_vec = [] → desc.bi_size = 0 → dev.read_to desc = ReadToResult.ok 0)
    ∧ (desc.bi_vec = [] → desc.bi_size ≠ 0 →
        ∃ m, dev.read_to desc = ReadToResult.err (IoError.invalidInput m))
    ∧ (desc.validate = false →
        ∃ m, dev.read_to desc = ReadToResult.err (IoError.invalidInput m))
    ∧ (∀ d rest, desc.bi_vec = d :: rest → dev.blob_count ≤ d.blob.blob_index →
        ∃ m, dev.read_to desc = ReadToResult.err (IoError.invalidInput m))
    ∧ (∀ d rest, desc.bi_vec = d :: rest → desc.validate = true →
        d.blob.blob_index < dev.blob_count →
        dev.read_to desc = ReadToResult.dispatched d.blob.blob_index desc.bi_size) := by
  obtain ⟨flags, size, l⟩ := desc
  cases l with
  | nil =>
    refine ⟨?_, ?_, ?_, ?_, ?_⟩
    · intro _ h0
      simp only at h0
      simp [BlobDevice.read_to, h0]
    · intro _ hne
      simp only at hne
      exact ⟨"BlobIoVec size does not match.", by simp [BlobDevice.read_to, hne]⟩
    · intro hval
      simp [BlobIoVec.validate] at hval
    · intro d rest heq
      cases heq
    · intro d rest heq
      cases heq
  | cons d0 rest =>
    refine ⟨?_, ?_, ?_, ?_, ?_⟩
    · intro heq
      cases heq
    · intro heq
      cases heq
    · intro hval
      exact ⟨"BlobIoVec targets multiple blobs.", by simp [BlobDevice.read_to, hval]⟩
    · intro d restq heq hge
      injection heq with h1 h2
      rw [← h1] at hge
      by_cases hval : BlobIoVec.validate { bi_flags := flags, bi_size := size, bi_vec := d0 :: rest } = false
      · exact ⟨"BlobIoVec targets multiple blobs.", by simp [BlobDevice.read_to, hval]⟩
      · refine ⟨"BlobIoVec has out of range blob_index.", ?_⟩
        simp [BlobDevice.read_to, hval, hge]
    · intro d restq heq hval hlt
      injection heq with h1 h2
      rw [← h1] at hlt
      rw [← h1]
      simp [BlobDevice.read_to, hval, Nat.not_le.mpr hlt]

/-- Witness for C1: an empty io-vector of size 0 on an empty device reads 0
bytes. -/
theorem blob_device_read_to_spec_witness :
    BlobDevice.read_to { blobs := [], blob_count := 0 }
      { bi_flags := 0, bi_size := 0, bi_vec := [] } = ReadToResult.ok 0 :=
  (blob_device_read_to_spec { blobs := [], blob_count := 0 }
      { bi_flags := 0, bi_size := 0, bi_vec := [] }).1 rfl rfl

/-- C4: `BlobDevice::update` with a blob-info list whose length differs from
the current cache vector fails with `InvalidInput`, leaves the cache vector
unchanged and performs no prefetch stop/start. -/
theorem blob_device_update_count_mismatch
    (newCache : BlobInfo → Except IoError CacheModel) (dev : BlobDevice)
    (blob_infos : List BlobInfo) (fs_prefetch : Bool)
    (h : blob_infos.length ≠ dev.blobs.length) :
    (∃ m, (dev.update newCache blob_infos fs_prefetch).result =
        Except.error (IoError.invalidInput m))
    ∧ (dev.update newCache blob_infos fs_prefetch).dev = dev
    ∧ (dev.update newCache blob_infos fs_prefetch).events = [] := by
  have hcond : dev.blobs.length ≠ blob_infos.length := fun hc => h hc.symm
  refine ⟨⟨"number of blobs does not match", ?_⟩, ?_, ?_⟩ <;>
    simp [BlobDevice.update, if_pos hcond]

/-- Witness for C4: updating an empty device with one blob info is rejected
without touching the device. -/
theorem blob_device_update_count_mismatch_witness :
    (BlobDevice.update (fun b => Except.ok { blob_id := b.blob_id, is_ready := fun _ => some true })
        { blobs := [], blob_count := 0 } [sampleBlob 0] true).events = [] :=
  (blob_device_update_count_mismatch
      (fun b => Except.ok { blob_id := b.blob_id, is_ready := fun _ => some true })
      { blobs := [], blob_count := 0 } [sampleBlob 0] true (by decide)).2.2

/-- C5: on a successful `update` with `fs_prefetch == true` the event trace is
exactly `stop_prefetch` on every old cache, then the atomic swap, then
`start_prefetch` on every new cache; with `fs_prefetch == false` the trace is
the bare swap, with no prefetch call. -/
theorem blob_device_update_prefetch_order
    (newCache : BlobInfo → Except IoError CacheModel) (dev : BlobDevice)
    (blob_infos : List BlobInfo) :
    ((dev.update newCache blob_infos true).result = Except.ok () →
      (dev.update newCache blob_infos true).events =
        (dev.blobs.map fun b => UpdateEvent.stopPrefetch b.blob_id)
          ++ [UpdateEvent.swapBlobs]
          ++ ((dev.update newCache blob_infos true).dev.blobs.map
                fun b => UpdateEvent.startPrefetch b.blob_id))
    ∧ ((dev.update newCache blob_infos false).result = Except.ok () →
      (dev.update newCache blob_infos false).events = [UpdateEvent.swapBlobs]) := by
  by_cases hlen : dev.blobs.length ≠ blob_infos.length
  · constructor <;> (intro h; simp [BlobDevice.update, if_pos hlen] at h)
  · cases hbc : buildCaches newCache blob_infos with
    | error e =>
      constructor <;> (intro h; simp [BlobDevice.update, if_neg hlen, hbc] at h)
    | ok blobs =>
      constructor <;> (intro _; simp [BlobDevice.update, if_neg hlen, hbc])

/-- Witness for C5: a one-blob device updated successfully with prefetch
enabled stops the old cache, swaps, then starts the new cache. -/
theorem blob_device_update_prefetch_order_witness :
    (BlobDevice.update
        (fun b => Except.ok { blob_id := b.blob_id, is_ready := fun _ => some true })
        { blobs := [{ blob_id := "old", is_ready := fun _ => some true }], blob_count := 1 }
        [sampleBlob 0] true).events =
      ([{ blob_id := "old", is_ready := fun _ => some true }].map
          fun b => UpdateEvent.stopPrefetch (CacheModel.blob_id b))
        ++ [UpdateEvent.swapBlobs]
        ++ ((BlobDevice.update
              (fun b => Except.ok { blob_id := b.blob_id, is_ready := fun _ => some true })
              { blobs := [{ blob_id := "old", is_ready := fun _ => some true }], blob_count := 1 }
              [sampleBlob 0] true).dev.blobs.map
              fun b => UpdateEvent.startPrefetch (CacheModel.blob_id b)) :=
  (blob_device_update_prefetch_order
      (fun b => Except.ok { blob_id := b.blob_id, is_ready := fun _ => some true })
      { blobs := [{ blob_id := "old", is_ready := fun _ => some true }], blob_count := 1 }
      [sampleBlob 0]).1 rfl

/-- Concrete in-range two-chunk io-range whose chunks share one id.  It passes
every bound check of `BlobIoRange::validate`: offset 0 and size 16 sit inside
the 4096-byte blob, and the parallel arrays have equal length. -/
def duplicateIdRange : BlobIoRange :=
  { blob_info := sampleBlob 0
    blob_offset := 0
    blob_size := 16
    chunks := [sampleChunk 5 0 8, sampleChunk 5 8 8]
    tags := [BlobIoTag.internal 0, BlobIoTag.internal 8] }

/-- C6 counterexample: a range whose two chunks carry the same id 5 satisfies
`validate() == true`, so equal chunk ids are not fatal and the accepted id
sequences are not the strictly monotonic ones. -/
theorem blob_io_range_validate_duplicate_ids_cex :
    BlobIoRange.validate duplicateIdRange = true
    ∧ duplicateIdRange.chunks.map (fun c => c.id) = [5, 5] := by
  constructor
  · decide
  · decide

/-- If the adjacent-id loop of `BlobIoRange::validate` accepts a list, every
chunk in it carries the head's id. -/
lemma checkChunkIds_all_eq (x : BlobIoChunk) (l : List BlobIoChunk)
    (h : BlobIoRange.checkChunkIds (x :: l) = true) :
    ∀ c ∈ x :: l, c.id = x.id := by
  induction l generalizing x with
  | nil =>
    intro c hc
    rw [List.mem_singleton.mp hc]
  | cons b rest ih =>
    rw [BlobIoRange.checkChunkIds, Bool.and_eq_true, beq_iff_eq] at h
    obtain ⟨hxb, hrest⟩ := h
    intro c hc
    rcases List.mem_cons.mp hc with h1 | h2
    · rw [h1]
    · rw [ih b hrest c h2, hxb]

/-- A validated `BlobIoRange` passed the adjacent-id loop. -/
lemma validate_checkChunkIds (r : BlobIoRange) (h : r.validate = true) :
    BlobIoRange.checkChunkIds r.chunks = true := by
  unfold BlobIoRange.validate at h
  split at h
  · simp at h
  · cases hca : checkedAdd64 r.blob_offset r.blob_size with
    | none =>
      rw [hca] at h
      simp at h
    | some e =>
      rw [hca] at h
      split at h
      · simp at h
      · split at h
        · simp at h
        · split at h
          · simp at h
          · exact h

/-- C6 amended: `BlobIoRange::validate` returns true only if all chunks carry
the same `id()` — the source loop returns false as soon as two adjacent chunk
ids differ — so any range containing two chunks with differing ids fails
validation; equal ids are required, not fatal. -/
theorem blob_io_range_validate_all_ids_equal (r : BlobIoRange)
    (h : r.validate = true) :
    ∀ c1 ∈ r.chunks, ∀ c2 ∈ r.chunks, c1.id = c2.id := by
  have hck := validate_checkChunkIds r h
  intro c1 h1 c2 h2
  cases hl : r.chunks with
  | nil =>
    rw [hl] at h1
    cases h1
  | cons x l =>
    rw [hl] at h1 h2 hck
    rw [checkChunkIds_all_eq x l hck c1 h1, checkChunkIds_all_eq x l hck c2 h2]

/-- Witness for C6 amended at the concrete validated range. -/
theorem blob_io_range_validate_all_ids_equal_witness :
    (sampleChunk 5 0 8).id = (sampleChunk 5 8 8).id :=
  blob_io_range_validate_all_ids_equal duplicateIdRange (by decide)
    (sampleChunk 5 0 8) (by decide) (sampleChunk 5 8 8) (by decide)

/-- C7: `all_chunks_ready` returns true iff every io-vector resolves to an
owning cache — a nonempty descriptor list whose first blob index is in range —
and every descriptor's chunk is reported ready by that cache's chunk map; an
unknown or out-of-range target blob index or any not-ready chunk yields false.
The hypothesis is the construction invariant that `blob_count` equals the
length of the cache vector. -/
theorem blob_device_all_chunks_ready_iff (dev : BlobDevice)
    (io_vecs : List BlobIoVec) (hinv : dev.blob_count = dev.blobs.length) :
    dev.all_chunks_ready io_vecs = true ↔
      ∀ v ∈ io_vecs, ∃ d0 rest, v.bi_vec = d0 :: rest ∧
        d0.blob.blob_index < dev.blob_count ∧
        ∃ cache, dev.blobs[d0.blob.blob_index]? = some cache ∧
          ∀ d ∈ v.bi_vec, (cache.is_ready d.chunkinfo).getD false = true := by
  rw [BlobDevice.all_chunks_ready, List.all_eq_true]
  apply forall_congr'
  intro v
  apply imp_congr_right
  intro _
  cases hv : v.bi_vec with
  | nil =>
    have hnone : dev.get_blob_by_iovec v = Option.none := by
      simp [BlobDevice.get_blob_by_iovec, BlobIoVec.get_target_blob_index, hv]
    rw [hnone]
    simp [hv]
  | cons d0 rest =>
    have htgt : v.get_target_blob_index = some d0.blob.blob_index := by
      simp [BlobIoVec.get_target_blob_index, hv]
    by_cases hlt : d0.blob.blob_index < dev.blob_count
    · have hlen : d0.blob.blob_index < dev.blobs.length := by omega
      have hsome : dev.get_blob_by_iovec v = dev.blobs[d0.blob.blob_index]? := by
        simp [BlobDevice.get_blob_by_iovec, htgt, hlt]
      obtain ⟨cache0, hcache0⟩ :
          ∃ c, dev.blobs[d0.blob.blob_index]? = some c := by
        rw [List.getElem?_eq_getElem hlen]
        exact ⟨_, rfl⟩
      rw [hsome, hcache0]
      simp only [List.all_eq_true]
      constructor
      · intro hall
        exact ⟨d0, rest, rfl, hlt, cache0, hcache0, hall⟩
      · rintro ⟨d0q, restq, heq, hltq, cache, hcache, hall⟩
        injection heq with e1 e2
        rw [← e1] at hcache
        have hc : cache0 = cache := Option.some.inj (hcache0.symm.trans hcache)
        intro x hx
        rw [hc]
        exact hall x hx
    · have hnone : dev.get_blob_by_iovec v = Option.none := by
        simp [BlobDevice.get_blob_by_iovec, htgt, hlt]
      rw [hnone]
      constructor
      · intro h
        exact Bool.noConfusion h
      · rintro ⟨d0q, restq, heq, hltq, _⟩
        injection heq with e1 _
        rw [← e1] at hltq
        exact absurd hltq hlt

/-- Concrete cache fixture whose chunk map reports every chunk ready. -/
def sampleCache : CacheModel :=
  { blob_id := "b0", is_ready := fun _ => some true }

/-- Concrete single-blob device fixture. -/
def sampleDevice : BlobDevice :=
  { blobs := [sampleCache], blob_count := 1 }

/-- Concrete io-vector fixture targeting blob 0 of `sampleDevice`. -/
def sampleIoVec : BlobIoVec :=
  { bi_flags := 0, bi_size := 8, bi_vec := [sampleDesc 0 (sampleChunk 0 0 8)] }

/-- Witness for C7: a ready single-chunk io-vector on a one-blob device. -/
theorem blob_device_all_chunks_ready_iff_witness :
    sampleDevice.all_chunks_ready [sampleIoVec] = true :=
  (blob_device_all_chunks_ready_iff sampleDevice [sampleIoVec] rfl).mpr (by
    intro v hv
    rw [List.mem_singleton.mp hv]
    refine ⟨sampleDesc 0 (sampleChunk 0 0 8), [], rfl, by decide, sampleCache,
      rfl, ?_⟩
    intro d _
    rfl)

/-- C9 counterexample: deserializing the empty JSON document into
`BlobPrefetchConfig` does not succeed — the struct carries no `serde(default)`
attribute, so the first missing field is an error. -/
theorem blob_prefetch_config_empty_json_cex :
    deserializeBlobPrefetchConfig [] = Except.error "missing field enable" := by
  rfl

/-- C9 amended: the fully populated document deserializes to exactly the four
field values; the disabled all-zero configuration is the derived `Default`
value, while the empty document fails with a missing-field error. -/
theorem blob_prefetch_config_deserialize_spec :
    deserializeBlobPrefetchConfig
        [("enable", JsonValue.bool true), ("threads_count", JsonValue.num 2),
         ("merging_size", JsonValue.num 4), ("bandwidth_rate", JsonValue.num 5)] =
      Except.ok
        { enable := true, threads_count := 2, merging_size := 4, bandwidth_rate := 5 }
    ∧ BlobPrefetchConfig.default =
      { enable := false, threads_count := 0, merging_size := 0, bandwidth_rate := 0 }
    ∧ ∃ m, deserializeBlobPrefetchConfig [] = Except.error m := by
  refine ⟨by rfl, rfl, ⟨"missing field enable", rfl⟩⟩
